import Mathlib

/-!
Shallow embedding of `src/burpee_tracker.py` (burpee-exercise-tracker).

Wall-clock time is modelled as a rational parameter `now` passed to each
operation that reads `time.time()` in the Python source.  The single
process-wide `Tracker` object becomes explicit state passing.  Python
floats become rationals; Python truthiness of `self.start_time` (falsy
for `None` and for `0.0`) is modelled by `pyTruthy`.
-/

/-- The two stage strings the tracker ever assigns. -/
inductive Stage where
  | down
  | up
  deriving DecidableEq

/-- The dict returned by `Camera.get_body_state`. -/
structure BodyState where
  is_visible : Bool
  nose_y : ℚ
  deriving DecidableEq

/-- The fields set in `Tracker.__init__`. -/
structure Tracker where
  count : Nat
  target : Int
  stage : Stage
  active : Bool
  start_time : Option ℚ
  paused_time : ℚ
  rep_times : List ℚ
  deriving DecidableEq

/-- Python truthiness of the optional `start_time` float: `None` and `0.0`
are falsy, every other float is truthy. -/
def pyTruthy : Option ℚ → Bool
  | none => false
  | some x => x != 0

namespace Tracker

/-- `Tracker.__init__`. -/
def init : Tracker :=
  { count := 0, target := 0, stage := Stage.down, active := false,
    start_time := none, paused_time := 0, rep_times := [] }

/-- `Tracker.start(target_reps)`, called at wall-clock time `now`. -/
def start (now : ℚ) (target_reps : Int) (_s : Tracker) : Tracker :=
  { count := 0, target := target_reps, stage := Stage.down, active := true,
    start_time := some now, paused_time := 0, rep_times := [] }

/-- `Tracker.get_elapsed_time`, evaluated at wall-clock time `now`. -/
def get_elapsed_time (now : ℚ) (s : Tracker) : ℚ :=
  if !pyTruthy s.start_time then 0
  else if s.active then now - s.start_time.getD 0
  else s.paused_time

/-- `Tracker.pause`, called at wall-clock time `now`. -/
def pause (now : ℚ) (s : Tracker) : Tracker :=
  if s.active then
    { s with paused_time := get_elapsed_time now s, active := false }
  else s

/-- `Tracker.resume`, called at wall-clock time `now`. -/
def resume (now : ℚ) (s : Tracker) : Tracker :=
  if !s.active && pyTruthy s.start_time then
    { s with start_time := some (now - s.paused_time), active := true }
  else s

/-- `Tracker.reset`. -/
def reset (_s : Tracker) : Tracker := init

/-- The `rep_times` append performed on a counted repetition.  The Python
code reads `self.start_time` as a number here; that line is only reached
while active, when `start_time` is a float, so `getD 0` never matters on
reachable states. -/
def appendRepTime (now : ℚ) (s : Tracker) : List ℚ :=
  if s.rep_times ≠ [] then
    s.rep_times ++ [now - s.rep_times.sum - s.start_time.getD 0]
  else
    s.rep_times ++ [now - s.start_time.getD 0]

/-- `Tracker.update_state(body_state)`, called at wall-clock time `now`. -/
def update_state (now : ℚ) (body_state : Option BodyState) (s : Tracker) :
    Tracker :=
  if !s.active then s
  else
    match body_state with
    | none =>
        if s.stage ≠ Stage.down then
          { s with stage := Stage.down, count := s.count + 1,
                   rep_times := appendRepTime now s }
        else s
    | some b =>
        if b.is_visible then
          if s.stage ≠ Stage.up then { s with stage := Stage.up } else s
        else
          if s.stage ≠ Stage.down then
            { s with stage := Stage.down, count := s.count + 1,
                     rep_times := appendRepTime now s }
          else s

/-- `Tracker.get_speed`, evaluated at wall-clock time `now`. -/
def get_speed (now : ℚ) (s : Tracker) : ℚ :=
  let elapsed := get_elapsed_time now s
  if 0 < elapsed ∧ 0 < s.count then ((s.count : ℚ) / elapsed) * 60 else 0

end Tracker

/-- Python `int()` truncation toward zero, applied to a rational. -/
def pyInt (q : ℚ) : Int :=
  if 0 ≤ q then Rat.floor q else Rat.ceil q

/-- The dict returned by `Tracker.get_metrics`. -/
structure Metrics where
  count : Nat
  target : Int
  time : Int
  speed : ℚ
  stage : Stage
  active : Bool
  complete : Bool
  deriving DecidableEq

/-- `Tracker.get_metrics`, evaluated at wall-clock time `now`. -/
def Tracker.get_metrics (now : ℚ) (s : Tracker) : Metrics :=
  { count := s.count, target := s.target,
    time := pyInt (s.get_elapsed_time now),
    speed := s.get_speed now,
    stage := s.stage, active := s.active,
    complete := decide (0 < s.target) && decide (s.target ≤ (s.count : Int)) }

/-- A pose landmark: position and visibility confidence. -/
structure Landmark where
  x : ℚ
  y : ℚ
  visibility : ℚ
  deriving DecidableEq

/-- The five landmarks `Camera.get_body_state` reads. -/
structure Landmarks where
  nose : Landmark
  left_shoulder : Landmark
  right_shoulder : Landmark
  left_hip : Landmark
  right_hip : Landmark
  deriving DecidableEq

namespace Camera

/-- `Camera.get_frame`: the frame on a successful read, `None` otherwise.
The only aspect of a frame the state logic observes is the pose result the
extractor computes from it, so a frame is represented by that content. -/
def get_frame {α : Type} (success : Bool) (frame : α) : Option α :=
  if success then some frame else none

/-- `Camera.get_body_state(landmarks)`. -/
def get_body_state (lm : Landmarks) : BodyState :=
  let nose_visible : Bool := decide ((1 : ℚ)/2 < lm.nose.visibility)
  let shoulders_visible : Bool :=
    decide ((1 : ℚ)/2 < lm.left_shoulder.visibility) &&
    decide ((1 : ℚ)/2 < lm.right_shoulder.visibility)
  let hips_visible : Bool :=
    decide ((1 : ℚ)/2 < lm.left_hip.visibility) &&
    decide ((1 : ℚ)/2 < lm.right_hip.visibility)
  { is_visible := nose_visible && shoulders_visible && hips_visible,
    nose_y := lm.nose.y }

/-- `Camera.get_user_state(frame)`: `None` when the pose extractor finds no
landmarks in the frame, the reduced body state otherwise. -/
def get_user_state (poseResult : Option Landmarks) : Option BodyState :=
  match poseResult with
  | none => none
  | some lm => some (get_body_state lm)

end Camera

/-- One iteration of the `generate_frames` loop: the camera read outcome,
the pose extraction outcome for that frame, and the wall-clock time. -/
structure FrameInput where
  read_success : Bool
  pose_landmarks : Option Landmarks
  now : ℚ
  deriving DecidableEq

/-- `generate_frames`: consumes camera iterations in order; breaks when
`get_frame` returns `None`; calls `tracker.update_state` only when
`get_user_state` is truthy (a non-empty dict); yields one multipart JPEG
part per processed frame.  Returns the final tracker state and the number
of yielded parts. -/
def generateFrames : List FrameInput → Tracker → Tracker × Nat
  | [], t => (t, 0)
  | fi :: rest, t =>
    match Camera.get_frame fi.read_success fi.pose_landmarks with
    | none => (t, 0)
    | some frame =>
      let user_state := Camera.get_user_state frame
      let t1 := match user_state with
                | some bs => Tracker.update_state fi.now (some bs) t
                | none => t
      let r := generateFrames rest t1
      (r.1, r.2 + 1)

/-- The JSON body of a `POST /start` request: the `target` field is present
or absent. -/
structure StartRequest where
  target : Option Int
  deriving DecidableEq

/-- The `/start` route handler `start_workout`: reads `target` from the
JSON body with default 20 and starts the tracker. -/
def start_workout (now : ℚ) (req : StartRequest) (s : Tracker) : Tracker :=
  Tracker.start now (req.target.getD 20) s

/-- Feeding a sequence of per-frame visibility booleans to
`Tracker.update_state`, each wrapped as the body-state dict. -/
def runSignals (sigs : List Bool) (now : ℚ) (t : Tracker) : Tracker :=
  sigs.foldl
    (fun acc b => Tracker.update_state now (some { is_visible := b, nose_y := 0 }) acc) t

/-! ## Claims -/

/-- C1: For every active session, `Tracker.update_state` with a visible
body signal moves the stage to `up` without changing the count; with a
non-visible signal while the stage is `up` it moves the stage to `down`
and increments the count by exactly one; a non-visible signal while the
stage is `down` changes nothing. -/
theorem C1_visibility_transitions (s : Tracker) (now : ℚ) (b : BodyState)
    (ha : s.active = true) :
    (b.is_visible = true →
      (Tracker.update_state now (some b) s).stage = Stage.up ∧
      (Tracker.update_state now (some b) s).count = s.count) ∧
    (b.is_visible = false → s.stage = Stage.up →
      (Tracker.update_state now (some b) s).stage = Stage.down ∧
      (Tracker.update_state now (some b) s).count = s.count + 1) ∧
    (b.is_visible = false → s.stage = Stage.down →
      Tracker.update_state now (some b) s = s) := by
  cases hb : b.is_visible <;> cases hs : s.stage <;>
    simp [Tracker.update_state, ha, hb, hs]

/-- Witness for C1 at a concrete active session and visible signal. -/
theorem C1_visibility_transitions_witness :
    (Tracker.update_state 0 (some { is_visible := true, nose_y := 0 })
        (Tracker.start 0 20 Tracker.init)).stage = Stage.up ∧
    (Tracker.update_state 0 (some { is_visible := true, nose_y := 0 })
        (Tracker.start 0 20 Tracker.init)).count =
      (Tracker.start 0 20 Tracker.init).count :=
  (C1_visibility_transitions (Tracker.start 0 20 Tracker.init) 0
    { is_visible := true, nose_y := 0 } rfl).1 rfl

/-- C2: a fresh session (the state produced by `Tracker.start`) fed the
visibility sequence [true, false, true, false] ends with count 2. -/
theorem C2_signal_sequence_count_two (now0 now : ℚ) (target : Int)
    (s : Tracker) :
    (runSignals [true, false, true, false] now
      (Tracker.start now0 target s)).count = 2 := by
  simp [runSignals, Tracker.start, Tracker.update_state, Tracker.appendRepTime]

/-- C5: every call to `Tracker.update_state` leaves the count unchanged or
increments it by one, and `Tracker.pause` never mutates the count. -/
theorem C5_count_monotone (s : Tracker) (now : ℚ) (bs : Option BodyState) :
    ((Tracker.update_state now bs s).count = s.count ∨
     (Tracker.update_state now bs s).count = s.count + 1) ∧
    (Tracker.pause now s).count = s.count := by
  constructor
  · cases bs with
    | none =>
        by_cases ha : s.active <;> cases hs : s.stage <;>
          simp [Tracker.update_state, ha, hs]
    | some b =>
        by_cases ha : s.active <;> cases hb : b.is_visible <;>
          cases hs : s.stage <;>
            simp [Tracker.update_state, ha, hb, hs]
  · by_cases ha : s.active <;> simp [Tracker.pause, ha]

/-- C9: a `POST /start` request whose JSON body omits the target field
starts the session exactly like `Tracker.start` with target 20: the
resulting target is 20 and the session is active. -/
theorem C9_default_target (now : ℚ) (s : Tracker) :
    start_workout now { target := none } s = Tracker.start now 20 s ∧
    (start_workout now { target := none } s).target = 20 ∧
    (start_workout now { target := none } s).active = true :=
  ⟨rfl, rfl, rfl⟩

/-- C10: `Tracker.pause` on an inactive session, and `Tracker.resume` on
an active session or on a session whose start_time was never set, return
the state unchanged in every field. -/
theorem C10_pause_resume_frame (s : Tracker) (now : ℚ) :
    (s.active = false → Tracker.pause now s = s) ∧
    (s.active = true → Tracker.resume now s = s) ∧
    (s.start_time = none → Tracker.resume now s = s) := by
  refine ⟨fun ha => ?_, fun ha => ?_, fun hst => ?_⟩
  · simp [Tracker.pause, ha]
  · simp [Tracker.resume, ha]
  · simp [Tracker.resume, hst, pyTruthy]

/-- Witness for C10: pause and resume are no-ops on the initial state, and
resume is a no-op on a freshly started (active) session. -/
theorem C10_pause_resume_frame_witness :
    Tracker.pause 3 Tracker.init = Tracker.init ∧
    Tracker.resume 3 (Tracker.start 1 20 Tracker.init) =
      Tracker.start 1 20 Tracker.init ∧
    Tracker.resume 3 Tracker.init = Tracker.init :=
  ⟨(C10_pause_resume_frame Tracker.init 3).1 rfl,
   (C10_pause_resume_frame (Tracker.start 1 20 Tracker.init) 3).2.1 rfl,
   (C10_pause_resume_frame Tracker.init 3).2.2 rfl⟩

/-- C3: pausing at time t1 an active session started at time t0 and
resuming at time t2 preserves elapsed time: at any instant t after the
resume, `get_elapsed_time` equals the frozen value captured at pause plus
the time elapsed since the resume. -/
theorem C3_pause_resume_preserves_elapsed (s : Tracker) (t0 t1 t2 t : ℚ)
    (ha : s.active = true) (hst : s.start_time = some t0)
    (h0 : 0 < t0) (h12 : t1 ≤ t2) :
    Tracker.get_elapsed_time t
        (Tracker.resume t2 (Tracker.pause t1 s)) =
      Tracker.get_elapsed_time t1 (Tracker.pause t1 s) + (t - t2) := by
  have htr : pyTruthy (some t0) = true := by
    simp [pyTruthy]
    exact h0.ne'
  have hpause : Tracker.pause t1 s =
      { s with paused_time := t1 - t0, active := false } := by
    simp [Tracker.pause, ha, Tracker.get_elapsed_time, hst, htr]
  have hfrozen : Tracker.get_elapsed_time t1 (Tracker.pause t1 s) = t1 - t0 := by
    rw [hpause]
    simp [Tracker.get_elapsed_time, pyTruthy, hst]
    intro h
    exact absurd h h0.ne'
  have hresume : Tracker.resume t2 (Tracker.pause t1 s) =
      { s with start_time := some (t2 - (t1 - t0)), active := true,
               paused_time := t1 - t0 } := by
    rw [hpause]
    simp [Tracker.resume, pyTruthy, hst]
    intro h
    exact absurd h h0.ne'
  have hpos : (0 : ℚ) < t2 - (t1 - t0) := by linarith
  rw [hresume, hfrozen]
  simp [Tracker.get_elapsed_time, pyTruthy, hpos.ne']
  ring

/-- Witness for C3 at concrete times: start at 1, pause at 2, resume at 5,
observe at 7; elapsed equals the frozen second plus the two seconds since
resume. -/
theorem C3_pause_resume_preserves_elapsed_witness :
    Tracker.get_elapsed_time 7
        (Tracker.resume 5 (Tracker.pause 2 (Tracker.start 1 20 Tracker.init))) =
      Tracker.get_elapsed_time 2 (Tracker.pause 2 (Tracker.start 1 20 Tracker.init))
        + (7 - 5) :=
  C3_pause_resume_preserves_elapsed (Tracker.start 1 20 Tracker.init)
    1 2 5 7 rfl rfl (by norm_num) (by norm_num)

/-- A concrete active session whose stage is `up`, used to exercise the
pipeline on a frame with no detected landmarks. -/
def upActive : Tracker :=
  { count := 0, target := 20, stage := Stage.up, active := true,
    start_time := some 1, paused_time := 0, rep_times := [] }

/-- C4 counterexample: in the pipeline driven by `generate_frames`, a frame
with no detected landmarks does NOT perform the implicit down transition:
on an active session in stage `up` with count 0, processing such a frame
leaves the stage `up` and the count 0, contrary to the claimed transition
to `down` with count 1. -/
theorem C4_pipeline_no_landmarks_counterexample :
    ¬ ((generateFrames
          [{ read_success := true, pose_landmarks := none, now := 5 }]
          upActive).1.stage = Stage.down ∧
       (generateFrames
          [{ read_success := true, pose_landmarks := none, now := 5 }]
          upActive).1.count = upActive.count + 1) := by
  decide

/-- C4 amended: `Tracker.update_state` itself does treat a `None` body
state on an active session as an implicit transition to `down`, with an
increment when the stage was `up`; but `generate_frames` never passes
`None` to it — a frame whose pose extraction yields no landmarks leaves
the tracker unchanged and merely streams on. -/
theorem C4_no_landmarks_amended (s : Tracker) (now : ℚ)
    (ha : s.active = true) :
    (s.stage = Stage.up →
      (Tracker.update_state now none s).stage = Stage.down ∧
      (Tracker.update_state now none s).count = s.count + 1) ∧
    (∀ rest : List FrameInput,
      generateFrames
          ({ read_success := true, pose_landmarks := none, now := now } :: rest) s =
        ((generateFrames rest s).1, (generateFrames rest s).2 + 1)) := by
  constructor
  · intro hs
    simp [Tracker.update_state, ha, hs]
  · intro rest
    simp [generateFrames, Camera.get_frame, Camera.get_user_state]

/-- Witness for C4 amended, at the concrete `up`-stage active session. -/
theorem C4_no_landmarks_amended_witness :
    (Tracker.update_state 5 none upActive).stage = Stage.down ∧
    (Tracker.update_state 5 none upActive).count = upActive.count + 1 :=
  (C4_no_landmarks_amended upActive 5 rfl).1 rfl

/-- C6: `get_speed` is zero whenever the elapsed time is zero, and equals
count divided by elapsed seconds times 60 whenever the elapsed time is
positive (also when the count is zero, where both sides vanish). -/
theorem C6_speed_formula (s : Tracker) (now : ℚ) :
    (Tracker.get_elapsed_time now s = 0 → Tracker.get_speed now s = 0) ∧
    (0 < Tracker.get_elapsed_time now s →
      Tracker.get_speed now s =
        ((s.count : ℚ) / Tracker.get_elapsed_time now s) * 60) := by
  constructor
  · intro h0
    simp [Tracker.get_speed, h0]
  · intro hpos
    rcases Nat.eq_zero_or_pos s.count with hc | hc
    · simp [Tracker.get_speed, hc]
    · simp [Tracker.get_speed, hpos, hc]

/-- Witness for C6: the initial state has elapsed 0 and speed 0, and a
session started at time 1 observed at time 3 has speed given by the
formula. -/
theorem C6_speed_formula_witness :
    Tracker.get_speed 0 Tracker.init = 0 ∧
    Tracker.get_speed 3 (Tracker.start 1 20 Tracker.init) =
      (((Tracker.start 1 20 Tracker.init).count : ℚ) /
        Tracker.get_elapsed_time 3 (Tracker.start 1 20 Tracker.init)) * 60 :=
  ⟨(C6_speed_formula Tracker.init 0).1 (by rfl),
   (C6_speed_formula (Tracker.start 1 20 Tracker.init) 3).2
     (by norm_num [Tracker.get_elapsed_time, Tracker.start, pyTruthy])⟩

/-- C7: each error condition short-circuits with a `None`/empty skip:
`get_frame` is `None` on a failed read; `generate_frames` terminates
(yielding nothing further, touching nothing) when `get_frame` is `None`;
`get_user_state` is `None` when the extractor yields no landmarks, and
the frame is then skipped for state-update purposes while the stream
continues. -/
theorem C7_error_short_circuits (f : Option Landmarks) (fi : FrameInput)
    (rest : List FrameInput) (t : Tracker) :
    Camera.get_frame false f = none ∧
    (fi.read_success = false → generateFrames (fi :: rest) t = (t, 0)) ∧
    Camera.get_user_state none = none ∧
    (fi.read_success = true → fi.pose_landmarks = none →
      generateFrames (fi :: rest) t =
        ((generateFrames rest t).1, (generateFrames rest t).2 + 1)) := by
  refine ⟨rfl, fun hr => ?_, rfl, fun hr hp => ?_⟩
  · simp [generateFrames, Camera.get_frame, hr]
  · simp [generateFrames, Camera.get_frame, Camera.get_user_state, hr, hp]

/-- Witness for C7 at a concrete failed read and a concrete
no-landmarks frame. -/
theorem C7_error_short_circuits_witness :
    generateFrames
        [{ read_success := false, pose_landmarks := none, now := 0 }]
        upActive = (upActive, 0) ∧
    generateFrames
        [{ read_success := true, pose_landmarks := none, now := 0 }]
        upActive =
      ((generateFrames [] upActive).1, (generateFrames [] upActive).2 + 1) :=
  ⟨(C7_error_short_circuits none
      { read_success := false, pose_landmarks := none, now := 0 }
      [] upActive).2.1 rfl,
   (C7_error_short_circuits none
      { read_success := true, pose_landmarks := none, now := 0 }
      [] upActive).2.2.2 rfl rfl⟩

/-- C8: the `complete` flag of `get_metrics` is true exactly when the
target is strictly positive and the count has reached it; it is false
whenever the target is zero, and the initial state has target zero. -/
theorem C8_complete_flag (s : Tracker) (now : ℚ) :
    ((Tracker.get_metrics now s).complete = true ↔
      0 < s.target ∧ s.target ≤ (s.count : Int)) ∧
    (s.target = 0 → (Tracker.get_metrics now s).complete = false) ∧
    Tracker.init.target = 0 := by
  refine ⟨?_, fun h0 => ?_, rfl⟩
  · simp [Tracker.get_metrics]
  · simp [Tracker.get_metrics, h0]

/-- Witness for C8: the initial state (target zero) is never complete, and
a session with target 2 and count 2 is complete. -/
theorem C8_complete_flag_witness :
    (Tracker.get_metrics 0 Tracker.init).complete = false ∧
    (Tracker.get_metrics 0
        { count := 2, target := 2, stage := Stage.down, active := true,
          start_time := some 1, paused_time := 0, rep_times := [] }).complete
      = true :=
  ⟨(C8_complete_flag Tracker.init 0).2.1 rfl,
   (C8_complete_flag
      { count := 2, target := 2, stage := Stage.down, active := true,
        start_time := some 1, paused_time := 0, rep_times := [] } 0).1.mpr
    (by norm_num)⟩
